import Mathlib

/-!
Shallow embedding of the authentication core of `src/routes/auth.py`
(a Flask blueprint backed by the in-memory user store of
`src/models/database.py`, where `db.users` is a list of records and the
handlers search/mutate it by index).

Modelling conventions:
* Time is an abstract tick counter in minutes (the code uses
  `datetime.now()` and `timedelta(minutes=30)`), so the 30-minute lock
  window is `now + 30`.
* Request JSON fields are passed as `String` arguments; a missing field
  and an empty string are both Python-falsy, so both are modelled as `""`.
* Strings in the handlers are ASCII in all relevant inputs; Python
  `str.lower`/`str.strip` are modelled by the character-list maps
  `pyLower`/`pyStrip` below, and the regex classes `[A-Z]`, `[a-z]`,
  `\d` by `Char.isUpper`, `Char.isLower`, `Char.isDigit` (all
  ASCII-range in Lean core).
* HTTP responses are modelled by their status code plus the payload
  fields the handler fills in.
-/

namespace BeckendTeste

/-- Time instants, in minutes (abstracting `datetime`). -/
abbrev Instant := Nat

/-! ### Password hasher (bcrypt)

The hashing itself is done by the third-party `bcrypt` library, not by
repository code.  Modelled from the bcrypt library's documented
behaviour: `hashpw` embeds a fresh salt and the hash of the password in
an opaque byte string, `checkpw(password, hashed)` recomputes and
compares — and raises `ValueError` ("Invalid salt") when `hashed` is not
a well-formed bcrypt hash, rather than returning `False`.  The opaque
hash is abstracted as a well-formedness flag plus the password it
commits to (collisions are ignored; the login/change-password theorems
only need "verifies" / "does not verify" as a black box). -/
structure BcryptHash where
  wellFormed : Bool
  pw : String
deriving DecidableEq, Repr

/-- Modelled from the bcrypt library: `bcrypt.checkpw` returns a `bool`
on a well-formed hash and raises `ValueError` on a malformed one. -/
def bcrypt_checkpw (password : String) (hashed : BcryptHash) : Except String Bool :=
  if hashed.wellFormed then Except.ok (password = hashed.pw)
  else Except.error "Invalid salt"

/-- Embeds `hash_password` (auth.py lines 28-31): fresh salt + `bcrypt.hashpw`. -/
def hash_password (password : String) : BcryptHash :=
  { wellFormed := true, pw := password }

/-- Embeds `check_password` (auth.py lines 33-35): delegates to `bcrypt.checkpw`
with no exception handling of its own. -/
def check_password (password : String) (hashed : BcryptHash) : Except String Bool :=
  bcrypt_checkpw password hashed

/-! ### Credential validator -/

/-- A character of the regex class `[a-zA-Z0-9._%+-]` (email local part). -/
def isLocalChar (c : Char) : Bool :=
  c.isAlpha || c.isDigit || c = '.' || c = '_' || c = '%' || c = '+' || c = '-'

/-- A character of the regex class `[a-zA-Z0-9.-]` (email domain part). -/
def isDomainChar (c : Char) : Bool :=
  c.isAlpha || c.isDigit || c = '.' || c = '-'

/-- Splits a character list at the first occurrence of `c`, if any. -/
def splitAtChar (c : Char) : List Char → Option (List Char × List Char)
  | [] => none
  | x :: xs =>
    if x = c then some ([], xs)
    else (splitAtChar c xs).map (fun p => (x :: p.1, p.2))

/-- Matches the part after `@` of the pattern in `validate_email`:
`[a-zA-Z0-9.-]+\.[a-zA-Z]{2,}$` — some split `d ++ "." ++ t` with `d`
nonempty over the domain class and `t` at least 2 alphabetic chars. -/
def domainMatch (cs : List Char) : Bool :=
  (List.range cs.length).any fun i =>
    decide (0 < i) && (cs.take i).all isDomainChar &&
      match cs.drop i with
      | '.' :: t => decide (2 ≤ t.length) && t.all Char.isAlpha
      | _ => false

/-- Embeds `validate_email` (auth.py lines 11-14): full match of
`^[a-zA-Z0-9._%+-]+@[a-zA-Z0-9.-]+\.[a-zA-Z]{2,}$`.  Both character
classes exclude `@`, so the string splits uniquely at its first `@`. -/
def validate_email (email : String) : Bool :=
  match splitAtChar '@' email.toList with
  | none => false
  | some (loc, rest) => decide (loc ≠ []) && loc.all isLocalChar && domainMatch rest

/-- Embeds `validate_password` (auth.py lines 16-26): length, uppercase,
lowercase, digit — in that order, first failure wins. -/
def validate_password (password : String) : Bool × String :=
  if password.length < 8 then
    (false, "Password must be at least 8 characters long")
  else if ¬ password.toList.any Char.isUpper then
    (false, "Password must contain at least one uppercase letter")
  else if ¬ password.toList.any Char.isLower then
    (false, "Password must contain at least one lowercase letter")
  else if ¬ password.toList.any Char.isDigit then
    (false, "Password must contain at least one number")
  else
    (true, "Password is valid")

/-- Python `str.lower` (ASCII model): lowercase every character. -/
def pyLower (s : String) : String :=
  ⟨s.data.map Char.toLower⟩

/-- Python `str.strip` (ASCII model): drop leading and trailing
whitespace. -/
def pyStrip (s : String) : String :=
  ⟨((s.data.dropWhile Char.isWhitespace).reverse.dropWhile Char.isWhitespace).reverse⟩

/-! ### Data model -/

/-- A user record as built by `register` (auth.py lines 71-82, plus the
`_id` assigned by the in-memory store at line 95). -/
structure User where
  _id : String
  name : String
  email : String
  password : BcryptHash
  user_type : String
  auth_method : String
  status : String
  created_at : Instant
  last_login : Option Instant
  failed_login_attempts : Nat
  locked_until : Option Instant
deriving DecidableEq, Repr

/-- The in-memory store's user table (`db.users`). -/
abbrev DB := List User

/-- An error payload: HTTP status code plus the `error` string of the
JSON body (every error body also carries `success: False`). -/
structure ErrResponse where
  status : Nat
  error : String
deriving DecidableEq, Repr

/-! ### Store updates

The handlers update the in-memory store by locating
`user_index = next(i for i, u in enumerate(db.users) if <key match>)`
and assigning the fields of `update_data` at that index
(auth.py lines 189-193, 213-217, 340-341).  Modelled as: rewrite the
first record matching the key with the field update. -/

/-- Apply `f` to the first record whose email is `email` (the in-memory
update of auth.py lines 189-198 and 213-222). -/
def updateByEmail : DB → String → (User → User) → DB
  | [], _, _ => []
  | u :: us, email, f =>
    if u.email = email then f u :: us
    else u :: updateByEmail us email f

/-- Apply `f` to the first record whose `_id` is `uid` (the in-memory
update of auth.py lines 340-341). -/
def updateById : DB → String → (User → User) → DB
  | [], _, _ => []
  | u :: us, uid, f =>
    if u._id = uid then f u :: us
    else u :: updateById us uid f

/-! ### Register (auth.py lines 37-134, in-memory branch) -/

/-- Outcome of `register`: an error response, or 201 with the new id. -/
inductive RegisterResp where
  | err (e : ErrResponse)
  | created (user_id : String)
deriving DecidableEq, Repr

/-- Embeds `register` (auth.py lines 37-134), in-memory store branch.  `name`,
`email`, `password` come from the request JSON (missing or empty is
falsy, modelled as `""`); `user_type` is `data.get('user_type',
'member')`, modelled as an `Option`. -/
def register (now : Instant) (db : DB)
    (name emailRaw passwordRaw : String) (userType : Option String) :
    RegisterResp × DB :=
  if name = "" then (.err ⟨400, "Missing required field: name"⟩, db)
  else if emailRaw = "" then (.err ⟨400, "Missing required field: email"⟩, db)
  else if passwordRaw = "" then (.err ⟨400, "Missing required field: password"⟩, db)
  else if ¬ validate_email emailRaw then (.err ⟨400, "Invalid email format"⟩, db)
  else
    let v := validate_password passwordRaw
    if ¬ v.1 then (.err ⟨400, v.2⟩, db)
    else
      let email := pyStrip (pyLower emailRaw)
      if db.any (fun u => u.email = email) then
        (.err ⟨400, "Email already registered"⟩, db)
      else
        let uid := toString (db.length + 1)
        let user : User :=
          { _id := uid
            name := pyStrip name
            email := email
            password := hash_password passwordRaw
            user_type := userType.getD "member"
            auth_method := "local"
            status := "active"
            created_at := now
            last_login := none
            failed_login_attempts := 0
            locked_until := none }
        (.created uid, db ++ [user])

/-! ### Login (auth.py lines 136-248, in-memory branch) -/

/-- Outcome of `login`: an error response, or 200 with the public view
the handler returns (auth.py lines 231-242). -/
inductive LoginResp where
  | err (e : ErrResponse)
  | ok (id name email user_type : String)
deriving DecidableEq, Repr

/-- Whether the lock gate of auth.py line 167 fires:
`user.get('locked_until') and user['locked_until'] > datetime.now()`
(`None` is falsy, a `datetime` is always truthy). -/
def lockedActive (now : Instant) (u : User) : Bool :=
  match u.locked_until with
  | none => false
  | some t => now < t

/-- The uniform 401 body of auth.py lines 160-164 and 200-203. -/
def invalidCredentialsResp : ErrResponse :=
  ⟨401, "Invalid email or password"⟩

/-- The 423 body of auth.py lines 166-171. -/
def accountLockedResp : ErrResponse :=
  ⟨423, "Account temporarily locked due to failed login attempts"⟩

/-- Embeds `login` (auth.py lines 136-248), in-memory store branch.  Returns
the response together with the store after the handler ran.  A
`ValueError` escaping `check_password` is caught by the handler's
top-level `except` and becomes a 500 (auth.py lines 244-248). -/
def login (now : Instant) (db : DB) (emailRaw passwordRaw : String) :
    LoginResp × DB :=
  if emailRaw = "" ∨ passwordRaw = "" then
    (.err ⟨400, "Email and password are required"⟩, db)
  else
    let email := pyStrip (pyLower emailRaw)
    match db.find? (fun u => u.email = email) with
    | none => (.err invalidCredentialsResp, db)
    | some user =>
      if lockedActive now user then (.err accountLockedResp, db)
      else
        match check_password passwordRaw user.password with
        | .error msg => (.err ⟨500, msg⟩, db)
        | .ok true =>
          let db' := updateByEmail db email fun u =>
            { u with
              failed_login_attempts := 0
              locked_until := none
              last_login := some now }
          (.ok user._id user.name user.email user.user_type, db')
        | .ok false =>
          let fa := user.failed_login_attempts + 1
          let db' :=
            if fa ≥ 5 then
              updateByEmail db email fun u =>
                { u with
                  failed_login_attempts := fa
                  locked_until := some (now + 30) }
            else
              updateByEmail db email fun u =>
                { u with failed_login_attempts := fa }
          (.err invalidCredentialsResp, db')

/-! ### Change password (auth.py lines 291-357, in-memory branch) -/

/-- Outcome of `change_password`: an error response, or 200. -/
inductive ChangePwResp where
  | err (e : ErrResponse)
  | ok
deriving DecidableEq, Repr

/-- Embeds `change_password` (auth.py lines 291-357), in-memory store branch.
`user_id` is the JWT identity; the handler checks required fields, then
new-password strength, then looks the user up, then checks the current
password, and only then re-hashes and stores. -/
def change_password (db : DB) (user_id current_password new_password : String) :
    ChangePwResp × DB :=
  if current_password = "" ∨ new_password = "" then
    (.err ⟨400, "Current password and new password are required"⟩, db)
  else
    let v := validate_password new_password
    if ¬ v.1 then (.err ⟨400, v.2⟩, db)
    else
      match db.find? (fun u => u._id = user_id) with
      | none => (.err ⟨404, "User not found"⟩, db)
      | some user =>
        match check_password current_password user.password with
        | .error msg => (.err ⟨500, msg⟩, db)
        | .ok false => (.err ⟨401, "Current password is incorrect"⟩, db)
        | .ok true =>
          (.ok, updateById db user_id fun u =>
            { u with password := hash_password new_password })


/-! ### Concrete fixtures for witness instances -/

/-- The record `register` builds for name "Bob", email "a@b.co",
password "Valid1Pass", appearing as the single user of the demo store. -/
def demoUser : User :=
  { _id := "1"
    name := "Bob"
    email := "a@b.co"
    password := hash_password "Valid1Pass"
    user_type := "member"
    auth_method := "local"
    status := "active"
    created_at := 0
    last_login := none
    failed_login_attempts := 0
    locked_until := none }

/-- The demo store holding just `demoUser`. -/
def demoDB : DB := [demoUser]

/-- One failed login attempt (wrong password) at time 0 for the demo
user, returning the store it leaves behind. -/
def demoFail (db : DB) : DB := (login 0 db "a@b.co" "wrong").2

/-- The demo store after five consecutive failed logins at time 0. -/
def demoDB5 : DB := demoFail (demoFail (demoFail (demoFail (demoFail demoDB))))

/-! ### Helper lemmas on store updates -/

/-- Updating fields of the first record matching an email leaves that
record findable (with the fields updated) as long as the update does not
touch the email key. -/
theorem find?_updateByEmail (email : String) (f : User → User)
    (hf : ∀ u, (f u).email = u.email) (db : DB) (u : User)
    (h : db.find? (fun v => v.email = email) = some u) :
    (updateByEmail db email f).find? (fun v => v.email = email) = some (f u) := by
  induction db with
  | nil => simp at h
  | cons v vs ih =>
    rw [updateByEmail]
    by_cases hv : v.email = email
    · rw [List.find?_cons_of_pos _ (by simpa using hv)] at h
      cases h
      rw [if_pos hv]
      exact List.find?_cons_of_pos _ (by simp [hf, hv])
    · rw [List.find?_cons_of_neg _ (by simpa using hv)] at h
      rw [if_neg hv]
      rw [List.find?_cons_of_neg _ (by simpa using hv)]
      exact ih h

/-! ### Claim C8 — password validation order and examples -/

/-- C8: `validate_password` applies its checks in order — length < 8,
missing uppercase, missing lowercase, missing digit — with the first
failure winning and its specific reason returned; it succeeds iff all
four pass; and the five spec examples evaluate as stated. -/
theorem validate_password_order_and_examples :
    (∀ s : String,
      ((validate_password s).1 = true ↔
        8 ≤ s.length ∧ s.toList.any Char.isUpper = true ∧
          s.toList.any Char.isLower = true ∧ s.toList.any Char.isDigit = true) ∧
      (s.length < 8 →
        validate_password s = (false, "Password must be at least 8 characters long")) ∧
      (8 ≤ s.length → s.toList.any Char.isUpper = false →
        validate_password s = (false, "Password must contain at least one uppercase letter")) ∧
      (8 ≤ s.length → s.toList.any Char.isUpper = true →
          s.toList.any Char.isLower = false →
        validate_password s = (false, "Password must contain at least one lowercase letter")) ∧
      (8 ≤ s.length → s.toList.any Char.isUpper = true →
          s.toList.any Char.isLower = true → s.toList.any Char.isDigit = false →
        validate_password s = (false, "Password must contain at least one number"))) ∧
    (validate_password "short1A").1 = false ∧
    (validate_password "alllowercase1").1 = false ∧
    (validate_password "ALLUPPER1").1 = false ∧
    (validate_password "NoDigitsHere").1 = false ∧
    (validate_password "Valid1Pass").1 = true := by
  refine ⟨fun s => ?_, rfl, rfl, rfl, rfl, rfl⟩
  unfold validate_password
  refine ⟨?_, ?_, ?_, ?_, ?_⟩ <;>
    · split_ifs <;> simp_all

/-- Witness for C8 at the concrete inputs "short1A" (too short) and
"Valid1Pass" (all checks pass). -/
theorem validate_password_order_witness :
    ("short1A".length < 8 ∧
      validate_password "short1A" =
        (false, "Password must be at least 8 characters long")) ∧
    (validate_password "Valid1Pass").1 = true := by
  refine ⟨⟨by decide, ?_⟩, validate_password_order_and_examples.2.2.2.2.2⟩
  exact (validate_password_order_and_examples.1 "short1A").2.1 (by decide)

/-! ### Claim C4 — malformed hash input -/

/-- C4 failing input: on a malformed stored hash, `check_password`
propagates bcrypt's `ValueError` ("Invalid salt") instead of returning a
boolean verification failure; the route's top-level handler turns it
into a generic 500, not an authentication result. -/
theorem check_password_malformed_hash_raises :
    check_password "password123" { wellFormed := false, pw := "" } =
      Except.error "Invalid salt" := rfl

/-! ### Reduction lemmas for `login` -/

/-- Reduction of `login` when no record matches the normalized email
(auth.py lines 160-164). -/
theorem login_eq_of_not_found (now : Instant) (db : DB) (emailRaw pw : String)
    (he : emailRaw ≠ "") (hp : pw ≠ "")
    (hfind : db.find? (fun u => u.email = pyStrip (pyLower emailRaw)) = none) :
    login now db emailRaw pw = (.err invalidCredentialsResp, db) := by
  simp [login, hfind, he, hp]

/-- Reduction of `login` when the matched record has an active lock
(auth.py lines 166-171). -/
theorem login_eq_of_locked (now : Instant) (db : DB) (emailRaw pw : String)
    (user : User) (he : emailRaw ≠ "") (hp : pw ≠ "")
    (hfind : db.find? (fun u => u.email = pyStrip (pyLower emailRaw)) = some user)
    (hl : lockedActive now user = true) :
    login now db emailRaw pw = (.err accountLockedResp, db) := by
  simp [login, hfind, hl, he, hp]

/-- Reduction of `login` on a wrong password against an unlocked record
(auth.py lines 173-203). -/
theorem login_eq_of_wrong_password (now : Instant) (db : DB) (emailRaw pw : String)
    (user : User) (he : emailRaw ≠ "") (hp : pw ≠ "")
    (hfind : db.find? (fun u => u.email = pyStrip (pyLower emailRaw)) = some user)
    (hnl : lockedActive now user = false)
    (hw : check_password pw user.password = Except.ok false) :
    login now db emailRaw pw =
      (.err invalidCredentialsResp,
        if user.failed_login_attempts + 1 ≥ 5 then
          updateByEmail db (pyStrip (pyLower emailRaw)) (fun u =>
            { u with
              failed_login_attempts := user.failed_login_attempts + 1
              locked_until := some (now + 30) })
        else
          updateByEmail db (pyStrip (pyLower emailRaw)) (fun u =>
            { u with failed_login_attempts := user.failed_login_attempts + 1 })) := by
  simp [login, hfind, hnl, hw, he, hp]

/-- Reduction of `login` on a correct password against an unlocked
record (auth.py lines 205-242). -/
theorem login_eq_of_success (now : Instant) (db : DB) (emailRaw pw : String)
    (user : User) (he : emailRaw ≠ "") (hp : pw ≠ "")
    (hfind : db.find? (fun u => u.email = pyStrip (pyLower emailRaw)) = some user)
    (hnl : lockedActive now user = false)
    (hok : check_password pw user.password = Except.ok true) :
    login now db emailRaw pw =
      (.ok user._id user.name user.email user.user_type,
        updateByEmail db (pyStrip (pyLower emailRaw)) (fun u =>
          { u with
            failed_login_attempts := 0
            locked_until := none
            last_login := some now })) := by
  simp [login, hfind, hnl, hok, he, hp]

/-! ### Claim C1 — failed login increments the counter and locks at 5 -/

/-- C1: a login attempt with a wrong password against a not-currently-
locked account increments `failed_login_attempts` by 1; when the new
count reaches 5 the stored record gets `locked_until = now + 30`
minutes, otherwise only the incremented counter is persisted and the
account stays unlocked; an expired lock does not reset the counter (the
increment starts from the stored value whatever `locked_until` was). -/
theorem login_wrong_password_lockout
    (now : Instant) (db : DB) (emailRaw pw : String) (user : User)
    (he : emailRaw ≠ "") (hp : pw ≠ "")
    (hfind : db.find? (fun u => u.email = pyStrip (pyLower emailRaw)) = some user)
    (hnl : lockedActive now user = false)
    (hw : check_password pw user.password = Except.ok false) :
    (login now db emailRaw pw).1 = .err invalidCredentialsResp ∧
    (login now db emailRaw pw).2.find? (fun u => u.email = pyStrip (pyLower emailRaw)) =
      some (if 5 ≤ user.failed_login_attempts + 1 then
              { user with
                failed_login_attempts := user.failed_login_attempts + 1
                locked_until := some (now + 30) }
            else
              { user with failed_login_attempts := user.failed_login_attempts + 1 }) ∧
    (user.failed_login_attempts + 1 < 5 →
      lockedActive now
        { user with failed_login_attempts := user.failed_login_attempts + 1 } = false) := by
  rw [login_eq_of_wrong_password now db emailRaw pw user he hp hfind hnl hw]
  refine ⟨rfl, ?_, fun _ => hnl⟩
  by_cases h5 : user.failed_login_attempts + 1 ≥ 5
  · rw [if_pos h5, if_pos (by omega : 5 ≤ user.failed_login_attempts + 1)]
    exact find?_updateByEmail (pyStrip (pyLower emailRaw))
      (fun u =>
        { u with
          failed_login_attempts := user.failed_login_attempts + 1
          locked_until := some (now + 30) })
      (fun u => rfl) db user hfind
  · rw [if_neg h5, if_neg (by omega : ¬ 5 ≤ user.failed_login_attempts + 1)]
    exact find?_updateByEmail (pyStrip (pyLower emailRaw))
      (fun u => { u with failed_login_attempts := user.failed_login_attempts + 1 })
      (fun u => rfl) db user hfind

/-- Witness for C1: a wrong password against the fresh demo user. -/
theorem login_wrong_password_lockout_witness :
    (login 0 demoDB "a@b.co" "wrong").1 = .err invalidCredentialsResp ∧
    (login 0 demoDB "a@b.co" "wrong").2.find? (fun u => u.email = pyStrip (pyLower "a@b.co")) =
      some (if 5 ≤ demoUser.failed_login_attempts + 1 then
              { demoUser with
                failed_login_attempts := demoUser.failed_login_attempts + 1
                locked_until := some (0 + 30) }
            else
              { demoUser with failed_login_attempts := demoUser.failed_login_attempts + 1 }) ∧
    (demoUser.failed_login_attempts + 1 < 5 →
      lockedActive 0
        { demoUser with failed_login_attempts := demoUser.failed_login_attempts + 1 } = false) :=
  login_wrong_password_lockout 0 demoDB "a@b.co" "wrong" demoUser
    (by decide) (by decide) rfl rfl rfl

/-! ### Claim C2 — active lock refuses login, and the 5-strikes trace -/

/-- C2: while `locked_until` is strictly in the future, `login` returns
the distinct 423 AccountLocked error for any supplied password and
leaves the store untouched; concretely, after five failed logins at
time 0 the sixth attempt with the correct password at time 29 is still
refused with AccountLocked, while the same attempt at time 30 succeeds
and resets the counter to 0. -/
theorem login_locked_refusal_and_trace :
    (∀ (now : Instant) (db : DB) (emailRaw pw : String) (user : User),
      emailRaw ≠ "" → pw ≠ "" →
      db.find? (fun u => u.email = pyStrip (pyLower emailRaw)) = some user →
      lockedActive now user = true →
      login now db emailRaw pw = (.err accountLockedResp, db)) ∧
    (login 29 demoDB5 "a@b.co" "Valid1Pass").1 = .err accountLockedResp ∧
    (login 30 demoDB5 "a@b.co" "Valid1Pass").1 = .ok "1" "Bob" "a@b.co" "member" ∧
    ((login 30 demoDB5 "a@b.co" "Valid1Pass").2.find?
        (fun u => u.email = "a@b.co")).map User.failed_login_attempts = some 0 := by
  exact ⟨fun now db emailRaw pw user he hp hfind hl =>
    login_eq_of_locked now db emailRaw pw user he hp hfind hl, rfl, rfl, rfl⟩

/-- Witness for C2: the sixth attempt at time 29 against the demo store,
with the correct password, hits the locked branch. -/
theorem login_locked_refusal_witness :
    login 29 demoDB5 "a@b.co" "Valid1Pass" = (.err accountLockedResp, demoDB5) :=
  login_locked_refusal_and_trace.1 29 demoDB5 "a@b.co" "Valid1Pass"
    { demoUser with failed_login_attempts := 5, locked_until := some 30 }
    (by decide) (by decide) rfl rfl

/-! ### Claim C5 — unknown email and wrong password are indistinguishable -/

/-- C5: a login against an unknown email and a login against an
existing, unlocked account with a wrong password both return the one
401 response body "Invalid email or password"; only the active-lock
case returns the distinguishable 423 AccountLocked response. -/
theorem login_error_indistinguishability :
    (∀ (now : Instant) (db : DB) (emailRaw pw : String),
      emailRaw ≠ "" → pw ≠ "" →
      db.find? (fun u => u.email = pyStrip (pyLower emailRaw)) = none →
      (login now db emailRaw pw).1 = .err invalidCredentialsResp) ∧
    (∀ (now : Instant) (db : DB) (emailRaw pw : String) (user : User),
      emailRaw ≠ "" → pw ≠ "" →
      db.find? (fun u => u.email = pyStrip (pyLower emailRaw)) = some user →
      lockedActive now user = false →
      check_password pw user.password = Except.ok false →
      (login now db emailRaw pw).1 = .err invalidCredentialsResp) ∧
    (∀ (now : Instant) (db : DB) (emailRaw pw : String) (user : User),
      emailRaw ≠ "" → pw ≠ "" →
      db.find? (fun u => u.email = pyStrip (pyLower emailRaw)) = some user →
      lockedActive now user = true →
      (login now db emailRaw pw).1 = .err accountLockedResp) ∧
    accountLockedResp ≠ invalidCredentialsResp := by
  refine ⟨?_, ?_, ?_, by decide⟩
  · intro now db emailRaw pw he hp hfind
    rw [login_eq_of_not_found now db emailRaw pw he hp hfind]
  · intro now db emailRaw pw user he hp hfind hnl hw
    rw [login_eq_of_wrong_password now db emailRaw pw user he hp hfind hnl hw]
  · intro now db emailRaw pw user he hp hfind hl
    rw [login_eq_of_locked now db emailRaw pw user he hp hfind hl]

/-- Witness for C5: unknown email and wrong password against the demo
store both produce the identical 401 body. -/
theorem login_error_indistinguishability_witness :
    (login 0 demoDB "nobody@b.co" "Valid1Pass").1 = .err invalidCredentialsResp ∧
    (login 0 demoDB "a@b.co" "wrong").1 = .err invalidCredentialsResp :=
  ⟨login_error_indistinguishability.1 0 demoDB "nobody@b.co" "Valid1Pass"
      (by decide) (by decide) rfl,
   login_error_indistinguishability.2.1 0 demoDB "a@b.co" "wrong" demoUser
      (by decide) (by decide) rfl rfl rfl⟩

/-! ### Claim C6 — successful login resets the counter and stamps last_login -/

/-- C6: on a successful login the stored record's
`failed_login_attempts` is reset to 0 and `last_login` is set to the
current time. -/
theorem login_success_resets_counter
    (now : Instant) (db : DB) (emailRaw pw : String) (user : User)
    (he : emailRaw ≠ "") (hp : pw ≠ "")
    (hfind : db.find? (fun u => u.email = pyStrip (pyLower emailRaw)) = some user)
    (hnl : lockedActive now user = false)
    (hok : check_password pw user.password = Except.ok true) :
    (login now db emailRaw pw).1 = .ok user._id user.name user.email user.user_type ∧
    ∃ u', (login now db emailRaw pw).2.find?
        (fun u => u.email = pyStrip (pyLower emailRaw)) = some u' ∧
      u'.failed_login_attempts = 0 ∧ u'.last_login = some now := by
  rw [login_eq_of_success now db emailRaw pw user he hp hfind hnl hok]
  refine ⟨rfl,
    { user with
      failed_login_attempts := 0
      locked_until := none
      last_login := some now }, ?_, rfl, rfl⟩
  exact find?_updateByEmail (pyStrip (pyLower emailRaw))
    (fun u =>
      { u with
        failed_login_attempts := 0
        locked_until := none
        last_login := some now })
    (fun u => rfl) db user hfind

/-- Witness for C6: the demo user logs in with the correct password. -/
theorem login_success_resets_counter_witness :
    (login 7 demoDB "a@b.co" "Valid1Pass").1 =
      .ok demoUser._id demoUser.name demoUser.email demoUser.user_type ∧
    ∃ u', (login 7 demoDB "a@b.co" "Valid1Pass").2.find?
        (fun u => u.email = pyStrip (pyLower "a@b.co")) = some u' ∧
      u'.failed_login_attempts = 0 ∧ u'.last_login = some 7 :=
  login_success_resets_counter 7 demoDB "a@b.co" "Valid1Pass" demoUser
    (by decide) (by decide) rfl rfl rfl

/-! ### Claim C10 — frame of a successful login -/

/-- C10: a successful login rewrites exactly the fields
`failed_login_attempts` (to 0), `locked_until` (cleared to `none`) and
`last_login` (to now) of the stored record, leaving `_id`, name, email,
password hash, user_type, auth_method, status and created_at unchanged;
the store is otherwise the one-record rewrite of the old store. -/
theorem login_success_frame
    (now : Instant) (db : DB) (emailRaw pw : String) (user : User)
    (he : emailRaw ≠ "") (hp : pw ≠ "")
    (hfind : db.find? (fun u => u.email = pyStrip (pyLower emailRaw)) = some user)
    (hnl : lockedActive now user = false)
    (hok : check_password pw user.password = Except.ok true) :
    login now db emailRaw pw =
      (.ok user._id user.name user.email user.user_type,
        updateByEmail db (pyStrip (pyLower emailRaw)) (fun u =>
          { u with
            failed_login_attempts := 0
            locked_until := none
            last_login := some now })) ∧
    (login now db emailRaw pw).2.find? (fun u => u.email = pyStrip (pyLower emailRaw)) =
      some { user with
             failed_login_attempts := 0
             locked_until := none
             last_login := some now } ∧
    ∀ u', (login now db emailRaw pw).2.find?
        (fun u => u.email = pyStrip (pyLower emailRaw)) = some u' →
      u'._id = user._id ∧ u'.name = user.name ∧ u'.email = user.email ∧
      u'.password = user.password ∧ u'.user_type = user.user_type ∧
      u'.auth_method = user.auth_method ∧ u'.status = user.status ∧
      u'.created_at = user.created_at ∧ u'.failed_login_attempts = 0 ∧
      u'.locked_until = none ∧ u'.last_login = some now := by
  have hupd := find?_updateByEmail (pyStrip (pyLower emailRaw))
    (fun u =>
      { u with
        failed_login_attempts := 0
        locked_until := none
        last_login := some now })
    (fun u => rfl) db user hfind
  rw [login_eq_of_success now db emailRaw pw user he hp hfind hnl hok]
  refine ⟨rfl, hupd, fun u' hu' => ?_⟩
  rw [hupd] at hu'
  cases hu'
  exact ⟨rfl, rfl, rfl, rfl, rfl, rfl, rfl, rfl, rfl, rfl, rfl⟩

/-- Witness for C10: the demo user logs in with the correct password at
time 7. -/
theorem login_success_frame_witness :
    login 7 demoDB "a@b.co" "Valid1Pass" =
      (.ok demoUser._id demoUser.name demoUser.email demoUser.user_type,
        updateByEmail demoDB (pyStrip (pyLower "a@b.co")) (fun u =>
          { u with
            failed_login_attempts := 0
            locked_until := none
            last_login := some 7 })) ∧
    (login 7 demoDB "a@b.co" "Valid1Pass").2.find?
        (fun u => u.email = pyStrip (pyLower "a@b.co")) =
      some { demoUser with
             failed_login_attempts := 0
             locked_until := none
             last_login := some 7 } :=
  ⟨(login_success_frame 7 demoDB "a@b.co" "Valid1Pass" demoUser
      (by decide) (by decide) rfl rfl rfl).1,
   (login_success_frame 7 demoDB "a@b.co" "Valid1Pass" demoUser
      (by decide) (by decide) rfl rfl rfl).2.1⟩

/-! ### Claim C3 — error order of change_password -/

/-- C3 counterexample: for an existing account given a wrong current
password and a weak new password, `change_password` returns the
weak-password validation error, not InvalidCredentials — the handler
validates new-password strength (auth.py lines 306-312) before it looks
the account up (lines 316-327) or checks the current password (lines
329-334). -/
theorem change_password_order_counterexample :
    (change_password demoDB "1" "bad" "weak").1 =
      .err ⟨400, "Password must be at least 8 characters long"⟩ ∧
    (change_password demoDB "1" "bad" "weak").1 ≠
      .err ⟨401, "Current password is incorrect"⟩ :=
  ⟨rfl, by decide⟩

/-- C3 (amended): `change_password` fails in this order — missing
fields, then WeakPassword with the specific reason (new-password
strength is validated before the account lookup), then NotFound if the
account id does not resolve, and only then InvalidCredentials if the
current password does not verify. -/
theorem change_password_error_order
    (db : DB) (uid cp np : String) (hc : cp ≠ "") (hn : np ≠ "") :
    ((validate_password np).1 = false →
      change_password db uid cp np = (.err ⟨400, (validate_password np).2⟩, db)) ∧
    ((validate_password np).1 = true →
      db.find? (fun u => u._id = uid) = none →
      change_password db uid cp np = (.err ⟨404, "User not found"⟩, db)) ∧
    (∀ user, (validate_password np).1 = true →
      db.find? (fun u => u._id = uid) = some user →
      check_password cp user.password = Except.ok false →
      change_password db uid cp np =
        (.err ⟨401, "Current password is incorrect"⟩, db)) := by
  refine ⟨fun hv => ?_, fun hv hf => ?_, fun user hv hf hw => ?_⟩
  · simp [change_password, hc, hn, hv]
  · simp [change_password, hc, hn, hv, hf]
  · simp [change_password, hc, hn, hv, hf, hw]

/-- Witness for the amended C3: wrong current password and weak new
password yield the weak-password error against the demo store. -/
theorem change_password_error_order_witness :
    change_password demoDB "1" "bad" "weak" =
      (.err ⟨400, "Password must be at least 8 characters long"⟩, demoDB) :=
  (change_password_error_order demoDB "1" "bad" "weak"
    (by decide) (by decide)).1 rfl

/-! ### Claim C7 — change_password errors leave the store unchanged -/

/-- C7: every `change_password` call that returns an error leaves the
user store exactly as it was; concretely, with the correct current
password and the weak new password "weak" the stored bcrypt hash is
unchanged and the returned validation error names the violated length
rule. -/
theorem change_password_error_leaves_store
    (db : DB) (uid cp np : String) (e : ErrResponse) (db' : DB)
    (h : change_password db uid cp np = (.err e, db')) :
    db' = db ∧
    change_password demoDB "1" "Valid1Pass" "weak" =
      (.err ⟨400, "Password must be at least 8 characters long"⟩, demoDB) ∧
    ((change_password demoDB "1" "Valid1Pass" "weak").2.find?
        (fun u => u._id = "1")).map User.password =
      some (hash_password "Valid1Pass") := by
  refine ⟨?_, rfl, rfl⟩
  simp only [change_password] at h
  repeat' split at h
  all_goals simp_all

/-- Witness for C7: a wrong current password returns an error and the
demo store comes back untouched. -/
theorem change_password_error_leaves_store_witness :
    (change_password demoDB "1" "bad" "Valid1Pass").2 = demoDB :=
  (change_password_error_leaves_store demoDB "1" "bad" "Valid1Pass"
    ⟨401, "Current password is incorrect"⟩
    (change_password demoDB "1" "bad" "Valid1Pass").2 rfl).1

/-! ### Claim C9 — duplicate normalized email on registration -/

/-- C9: registering with an email whose normalized (lowercased,
trimmed) form matches an existing account fails with the DuplicateEmail
error "Email already registered"; concretely, registering
"User@Example.com" and then "user@example.com" yields that error on the
second call. -/
theorem register_duplicate_email :
    (∀ (now : Instant) (db : DB) (name emailRaw pw : String) (ut : Option String),
      name ≠ "" → emailRaw ≠ "" → pw ≠ "" →
      validate_email emailRaw = true → (validate_password pw).1 = true →
      db.any (fun u => u.email = pyStrip (pyLower emailRaw)) = true →
      register now db name emailRaw pw ut =
        (.err ⟨400, "Email already registered"⟩, db)) ∧
    (register 0 ([] : DB) "Bob" "User@Example.com" "Valid1Pass" none).1 =
      .created "1" ∧
    (register 1 (register 0 ([] : DB) "Bob" "User@Example.com" "Valid1Pass" none).2
        "Alice" "user@example.com" "Valid1Pass" none).1 =
      .err ⟨400, "Email already registered"⟩ := by
  refine ⟨?_, rfl, rfl⟩
  intro now db name emailRaw pw ut hn he hp hve hvp hdup
  simp [register, hn, he, hp, hve, hvp, hdup]

/-- Witness for C9: the second registration of the normalized duplicate
email, run through the general duplicate branch. -/
theorem register_duplicate_email_witness :
    register 1 (register 0 ([] : DB) "Bob" "User@Example.com" "Valid1Pass" none).2
        "Alice" "user@example.com" "Valid1Pass" none =
      (.err ⟨400, "Email already registered"⟩,
        (register 0 ([] : DB) "Bob" "User@Example.com" "Valid1Pass" none).2) :=
  register_duplicate_email.1 1
    (register 0 ([] : DB) "Bob" "User@Example.com" "Valid1Pass" none).2
    "Alice" "user@example.com" "Valid1Pass" none
    (by decide) (by decide) (by decide) (by decide) (by decide) (by decide)

end BeckendTeste
